import Mathlib

/-!
Shallow embedding of `src/multi_tool_agent/agent.py` (PYAG1/Weather-Agent).

Python dictionaries returned by the tool functions are embedded as the
`ToolResult` record whose optional fields record which keys are present.
Python `str.lower()` is embedded as `String.toLower`.  The wall clock of
`get_current_time` is passed in as a function from a time-zone identifier
to the already-formatted time string, so the embedding stays pure.
-/

namespace MultiToolAgent

/-- Embedding of the result dictionaries built by `get_weather` and
`get_current_time`: a `status` string plus the two optional payload keys. -/
structure ToolResult where
  status : String
  report : Option String
  error_message : Option String
deriving DecidableEq, Repr

/-- `s` contains `sub` as a contiguous substring. -/
def contains_substr (s sub : String) : Prop :=
  ∃ pre post, s = pre ++ sub ++ post

/-- Embedding of Python `str.lower()`: lowercase every character (exact on
the ASCII strings the program compares). -/
def str_lower (s : String) : String :=
  String.mk (s.data.map Char.toLower)

/-- Embedding of `get_weather` (agent.py lines 23-44). -/
def get_weather (city : String) : ToolResult :=
  if str_lower city == "new york" then
    { status := "success"
      report := some ("The weather in New York is sunny with a temperature of 25 degrees" ++
        " Celsius (77 degrees Fahrenheit).")
      error_message := none }
  else
    { status := "error"
      report := none
      error_message := some ("Weather information for '" ++ city ++ "' is not available.") }

/-- Embedding of `get_current_time` (agent.py lines 47-71).  `now_strftime tz`
stands for `datetime.datetime.now(ZoneInfo(tz)).strftime("%Y-%m-%d %H:%M:%S %Z%z")`:
the current wall-clock time in zone `tz`, already formatted. -/
def get_current_time (now_strftime : String → String) (city : String) : ToolResult :=
  if str_lower city == "new york" then
    let tz_identifier := "America/New_York"
    { status := "success"
      report := some ("The current time in " ++ city ++ " is " ++ now_strftime tz_identifier)
      error_message := none }
  else
    { status := "error"
      report := none
      error_message := some ("Sorry, I don't have timezone information for " ++ city ++ ".") }

/-- Embedding of `say_hello` (agent.py lines 74-84); the Python default
argument is the string "there". -/
def say_hello (name : String := "there") : String :=
  "Hello, " ++ name ++ "!"

/-- The call `say_hello()` with no argument: Lean inserts the declared
default, exactly as Python does. -/
def say_hello_noarg : String := say_hello

/-- Embedding of `say_goodbye` (agent.py lines 87-90). -/
def say_goodbye : String :=
  "Goodbye! Have a great day."

/-- The ToolResult invariant of the spec: status is success or error, the
report key is present exactly on success, the error_message key exactly on
error, and never both. -/
def tool_result_invariant (r : ToolResult) : Prop :=
  (r.status = "success" ∨ r.status = "error") ∧
  (r.report.isSome ↔ r.status = "success") ∧
  (r.error_message.isSome ↔ r.status = "error") ∧
  ¬(r.report.isSome ∧ r.error_message.isSome)

/-- The configuration fields bound by an `Agent(...)` call other than the
sub-agent list (agent.py passes model, name, instruction, description, tools;
tools are identified here by the tool function names). -/
structure AgentConfig where
  name : String
  model : String
  instruction : String
  description : String
  tools : List String
deriving DecidableEq, Repr

/-- An agent descriptor: its configuration plus its ordered sub-agents. -/
inductive Agent : Type where
  | mk (config : AgentConfig) (sub_agents : List Agent)

/-- The configuration of an agent descriptor. -/
def Agent.config : Agent → AgentConfig
  | Agent.mk c _ => c

/-- The sub-agents of an agent descriptor. -/
def Agent.sub_agents : Agent → List Agent
  | Agent.mk _ s => s

/-- The name field of an agent descriptor. -/
def Agent.name (a : Agent) : String :=
  a.config.name

/-- Model constant `MODEL_GEMINI_2_0_FLASH` (agent.py line 20). -/
def MODEL_GEMINI_2_0_FLASH : String := "gemini-2.0-flash"

/-- The configuration the root `Agent(...)` call binds (agent.py lines 141-155),
without the sub-agent list. -/
def root_agent_config : AgentConfig :=
  { name := "weather_agent_team"
    model := MODEL_GEMINI_2_0_FLASH
    description := "The main coordinator agent. Handles weather requests and delegates greetings/farewells to specialists."
    instruction := "You are the main Weather Agent coordinating a team. Your primary responsibility is to provide weather information. " ++
      "Use the 'get_weather' tool ONLY for specific weather requests (e.g., 'weather in London'). " ++
      "You have specialized sub-agents: " ++
      "1. 'greeting_agent': Handles simple greetings like 'Hi', 'Hello'. Delegate to it for these. " ++
      "2. 'farewell_agent': Handles simple farewells like 'Bye', 'See you'. Delegate to it for these. " ++
      "Analyze the user's query. If it's a greeting, delegate to 'greeting_agent'. If it's a farewell, delegate to 'farewell_agent'. " ++
      "If it's a weather request, handle it yourself using 'get_weather'. " ++
      "For anything else, respond appropriately or state you cannot handle it."
    tools := ["get_weather"] }

/-- Embedding of `create_root_agent` (agent.py lines 134-160).  The Python
arguments may be `None`, embedded as `Option Agent`; `agent_ctor` stands for
the framework `Agent(...)` constructor, which may raise (`Except.error`), and
the returned list collects the messages printed.  The `try` block catches a
constructor fault and returns `None`. -/
def create_root_agent (agent_ctor : Agent → Except String Agent)
    (greeting_agent farewell_agent : Option Agent) : Option Agent × List String :=
  match greeting_agent, farewell_agent with
  | some g, some f =>
    match agent_ctor (Agent.mk root_agent_config [g, f]) with
    | Except.ok root_agent =>
      (some root_agent,
        ["✅ Root Agent '" ++ root_agent.name ++ "' created with sub-agents: " ++
          String.intercalate ", " (root_agent.sub_agents.map Agent.name)])
    | Except.error e =>
      (none, ["❌ Could not create Root agent. Error: " ++ e])
  | _, _ =>
    (none, ["❌ Cannot create root agent because one or more sub-agents are missing."])

/-- The `actions` attribute of an ADK event, as far as `call_agent_async`
inspects it. -/
structure EventActions where
  escalate : Bool
deriving DecidableEq, Repr

/-- An ADK event as far as `call_agent_async` inspects it: whether it is a
final response, its optional content (a list of part texts), its optional
actions, and its optional error message.  A `content` of `some []` stands for
a content object whose `parts` list is empty (falsy in Python). -/
structure Event where
  is_final_response : Bool
  content : Option (List String)
  actions : Option EventActions
  error_message : Option String
deriving DecidableEq, Repr

/-- The default `final_response_text` of `call_agent_async` (agent.py line 170). -/
def default_response_text : String := "Agent did not produce a final response."

/-- The text `call_agent_async` extracts from a final event (agent.py lines
177-182): the first part's text when content is truthy and has parts, else the
escalation message when the event escalates (Python `or` takes the fallback on
`None` and on the empty string), else the incoming default. -/
def final_event_text (fallback : String) (e : Event) : String :=
  match e.content with
  | some (t :: _) => t
  | _ =>
    match e.actions with
    | some a =>
      if a.escalate then
        "Agent escalated: " ++
          (match e.error_message with
           | some m => if m == "" then "No specific message." else m
           | none => "No specific message.")
      else fallback
    | none => fallback

/-- The `async for` loop of `call_agent_async` (agent.py lines 172-184) over
the stream produced by `runner.run_async`: the events the stream yields, then
optionally an exception it raises (its message).  The loop breaks at the first
final event; an exception is caught and replaces the response text. -/
def run_loop (fallback : String) : List Event → Option String → String
  | [], none => fallback
  | [], some exc => "Error during agent execution: " ++ exc
  | ev :: rest, exc =>
    if ev.is_final_response then final_event_text fallback ev
    else run_loop fallback rest exc

/-- Embedding of `call_agent_async` (agent.py lines 163-186): the final
response text it prints, given the event stream (events yielded, then an
optional exception) of the external run. -/
def call_agent_async (events : List Event) (exc : Option String) : String :=
  run_loop default_response_text events exc

/-- Embedding of `main` (agent.py lines 227-232): given the outcome of
`asyncio.run(run_team_conversation())` (normal return or a raised fault with
its message), the process exit code and the lines printed by the handler.
The `except` clause catches every fault and `main` returns normally, so the
exit code is 0 on both branches. -/
def main : Except String Unit → Nat × List String
  | Except.ok _ => (0, [])
  | Except.error e => (0, ["An error occurred in the main execution: " ++ e])

/-- Embedding of the module initialization (agent.py lines 13-17): given the
value of `GOOGLE_API_KEY` after `load_dotenv()` (absent, or present with some
string), either the `ValueError` raised when the value is falsy (absent or
empty), or the key that is re-exported into the environment. -/
def module_init (env_google_api_key : Option String) : Except String String :=
  match env_google_api_key with
  | none =>
    Except.error ("Missing GOOGLE_API_KEY environment variable. " ++
      "Please set it in a .env file or your environment.")
  | some k =>
    if k == "" then
      Except.error ("Missing GOOGLE_API_KEY environment variable. " ++
        "Please set it in a .env file or your environment.")
    else Except.ok k

/-- Start-up sequencing of the module: initialization runs at import time,
before `main` (and hence before any agent descriptor is constructed inside
`run_team_conversation`); a failed initialization propagates and nothing
later runs. -/
def run_module (env_google_api_key : Option String)
    (conversation_outcome : Except String Unit) : Except String (Nat × List String) :=
  match module_init env_google_api_key with
  | Except.error e => Except.error e
  | Except.ok _ => Except.ok (main conversation_outcome)

/-- Observable turn events of the driver: the external call of turn `n`
starts, or completes (its terminal event is observed). -/
inductive TurnEv : Type where
  | started (n : Nat)
  | completed (n : Nat)
deriving DecidableEq, Repr

/-- The trace of one awaited `call_agent_async` call: under the single-chain
cooperative scheduling of `asyncio.run`, the `await` suspends the driver until
the call completes, so the call is atomic in the driver's trace. -/
def awaited_call_trace (n : Nat) : List TurnEv :=
  [TurnEv.started n, TurnEv.completed n]

/-- Embedding of the turn sequencing of `run_team_conversation` (agent.py
lines 221-223): the three awaited calls compose sequentially. -/
def run_team_conversation_trace : List TurnEv :=
  awaited_call_trace 1 ++ awaited_call_trace 2 ++ awaited_call_trace 3

/-- The turns in flight after a trace: started and not yet completed. -/
def turns_in_flight (evs : List TurnEv) : List Nat :=
  evs.foldl
    (fun acc ev =>
      match ev with
      | TurnEv.started n => n :: acc
      | TurnEv.completed n => acc.erase n)
    []

/-- C1: `get_weather` returns status "success" with the fixed, non-empty
templated report sentence exactly when the city lowercases to "new york";
every other input yields status "error" with error_message exactly
"Weather information for '<city>' is not available." with the caller's
string embedded verbatim. -/
theorem get_weather_contract (city : String) :
    (str_lower city = "new york" →
      get_weather city =
        { status := "success"
          report := some ("The weather in New York is sunny with a temperature of 25 degrees" ++
            " Celsius (77 degrees Fahrenheit).")
          error_message := none } ∧
      ("The weather in New York is sunny with a temperature of 25 degrees" ++
        " Celsius (77 degrees Fahrenheit)." : String) ≠ "") ∧
    (str_lower city ≠ "new york" →
      get_weather city =
        { status := "error"
          report := none
          error_message := some ("Weather information for '" ++ city ++ "' is not available.") }) := by
  constructor
  · intro h
    exact ⟨by simp [get_weather, h], by decide⟩
  · intro h
    simp [get_weather, h]

/-- C2: `get_current_time` returns status "success" exactly when the city
lowercases to "new york", in which case the wall clock is read in the fixed
zone America/New_York and formatted into a non-empty report; every other
input yields status "error" with an error_message containing the caller's
string verbatim. -/
theorem get_current_time_contract (now_strftime : String → String) (city : String) :
    (str_lower city = "new york" →
      get_current_time now_strftime city =
        { status := "success"
          report := some ("The current time in " ++ city ++ " is " ++
            now_strftime "America/New_York")
          error_message := none } ∧
      ("The current time in " ++ city ++ " is " ++ now_strftime "America/New_York") ≠ "") ∧
    (str_lower city ≠ "new york" →
      get_current_time now_strftime city =
        { status := "error"
          report := none
          error_message := some ("Sorry, I don't have timezone information for " ++ city ++ ".") } ∧
      contains_substr ("Sorry, I don't have timezone information for " ++ city ++ ".") city) := by
  constructor
  · intro h
    refine ⟨by simp [get_current_time, h], ?_⟩
    intro hempty
    have hlen := congrArg String.length hempty
    simp [String.length_append] at hlen
    exact absurd hlen.1.1.1 (by decide)
  · intro h
    refine ⟨by simp [get_current_time, h], ?_⟩
    exact ⟨"Sorry, I don't have timezone information for ", ".", rfl⟩

/-- C3: every record returned by `get_weather` or `get_current_time`
satisfies the ToolResult invariant: status is "success" or "error", the
report key is present iff status is "success", the error_message key is
present iff status is "error", and the two are never both present. -/
theorem tool_results_satisfy_invariant (now_strftime : String → String) (city : String) :
    tool_result_invariant (get_weather city) ∧
    tool_result_invariant (get_current_time now_strftime city) := by
  constructor <;>
  · simp only [tool_result_invariant, get_weather, get_current_time]
    split <;> simp

/-- C8: `say_hello name` returns a greeting string containing `name`
verbatim, `say_hello` with no argument returns a greeting containing the
default placeholder "there", and both calls return a plain greeting string
unconditionally (no error-status result, no exception: the function is
total with result type String). -/
theorem say_hello_contract (name : String) :
    say_hello name = "Hello, " ++ name ++ "!" ∧
    contains_substr (say_hello name) name ∧
    say_hello_noarg = "Hello, " ++ "there" ++ "!" ∧
    contains_substr say_hello_noarg "there" := by
  refine ⟨rfl, ⟨"Hello, ", "!", rfl⟩, rfl, ⟨"Hello, ", "!", rfl⟩⟩

/-- C10: for every accepted input (lowercasing to "new york"), the success
report of `get_current_time` embeds the caller's string verbatim with its
original casing, and the wall clock is read in the fixed zone
America/New_York. -/
theorem get_current_time_preserves_casing (now_strftime : String → String) (s : String)
    (h : str_lower s = "new york") :
    get_current_time now_strftime s =
      { status := "success"
        report := some ("The current time in " ++ s ++ " is " ++
          now_strftime "America/New_York")
        error_message := none } ∧
    contains_substr ("The current time in " ++ s ++ " is " ++
      now_strftime "America/New_York") s := by
  refine ⟨by simp [get_current_time, h], ?_⟩
  exact ⟨"The current time in ", " is " ++ now_strftime "America/New_York", by simp [String.append_assoc]⟩

/-- C10 witness: the accepted mixed-case input "nEw YoRk" keeps its casing in
the report, with the clock read at the identifier America/New_York. -/
theorem get_current_time_preserves_casing_witness :
    get_current_time (fun tz => tz) "nEw YoRk" =
      { status := "success"
        report := some ("The current time in " ++ "nEw YoRk" ++ " is " ++ "America/New_York")
        error_message := none } ∧
    contains_substr ("The current time in " ++ "nEw YoRk" ++ " is " ++ "America/New_York")
      "nEw YoRk" :=
  get_current_time_preserves_casing (fun tz => tz) "nEw YoRk" (by decide)

/-- C4: per turn, `call_agent_async` yields exactly one final response text:
the first final event's text under the precedence (explicit content text,
else escalation message, else the fixed default, as `final_event_text`
folds them); when the run loop raises instead, the exception is caught and
the text becomes the bounded descriptive error string.  The function is
total, so an exception never propagates and some text is always produced. -/
theorem call_agent_async_response (events : List Event) (exc : Option String) :
    (∃ pre e post,
        events = pre ++ e :: post ∧
        (∀ x ∈ pre, x.is_final_response = false) ∧
        e.is_final_response = true ∧
        call_agent_async events exc = final_event_text default_response_text e) ∨
    ((∀ x ∈ events, x.is_final_response = false) ∧
      call_agent_async events exc =
        (match exc with
         | some m => "Error during agent execution: " ++ m
         | none => default_response_text)) := by
  induction events with
  | nil =>
    right
    refine ⟨by simp, ?_⟩
    cases exc <;> rfl
  | cons ev rest ih =>
    cases hf : ev.is_final_response with
    | true =>
      left
      refine ⟨[], ev, rest, rfl, by simp, hf, ?_⟩
      simp [call_agent_async, run_loop, hf]
    | false =>
      have hstep : call_agent_async (ev :: rest) exc = call_agent_async rest exc := by
        simp [call_agent_async, run_loop, hf]
      rcases ih with ⟨pre, e, post, hsplit, hpre, hfin, heq⟩ | ⟨hnone, heq⟩
      · left
        refine ⟨ev :: pre, e, post, by simp [hsplit], ?_, hfin, by rw [hstep]; exact heq⟩
        intro x hx
        rcases List.mem_cons.mp hx with hx | hx
        · subst hx; exact hf
        · exact hpre x hx
      · right
        refine ⟨?_, by rw [hstep]; exact heq⟩
        intro x hx
        rcases List.mem_cons.mp hx with hx | hx
        · subst hx; exact hf
        · exact hnone x hx

/-- C5: when either sub-agent argument is absent, `create_root_agent`
returns absent together with the explicit log message, and (being a total
function) never raises: no root descriptor missing a required sub-agent is
ever constructed. -/
theorem create_root_agent_guard (agent_ctor : Agent → Except String Agent)
    (greeting_agent farewell_agent : Option Agent)
    (h : greeting_agent = none ∨ farewell_agent = none) :
    create_root_agent agent_ctor greeting_agent farewell_agent =
      (none, ["❌ Cannot create root agent because one or more sub-agents are missing."]) := by
  rcases h with h | h
  · subst h
    cases farewell_agent <;> rfl
  · subst h
    cases greeting_agent <;> rfl

/-- C5 witness: both sub-agents absent, under a constructor that would
succeed, still yields absent plus the log message. -/
theorem create_root_agent_guard_witness :
    create_root_agent (fun a => Except.ok a) none none =
      (none, ["❌ Cannot create root agent because one or more sub-agents are missing."]) :=
  create_root_agent_guard (fun a => Except.ok a) none none (Or.inl rfl)

/-- C6: `main` maps every outcome of the conversation run to exit code 0,
and a fault is caught and reported as a printed error description; `main`
is total, so it returns normally in every case. -/
theorem main_always_exits_zero (conversation_outcome : Except String Unit) :
    (main conversation_outcome).1 = 0 ∧
    (∀ e, main (Except.error e) =
      (0, ["An error occurred in the main execution: " ++ e])) := by
  refine ⟨?_, fun e => rfl⟩
  cases conversation_outcome <;> rfl

/-- C7: with `GOOGLE_API_KEY` absent after loading the .env file, module
initialization raises the configuration error and the whole module run
short-circuits: no normal outcome (hence no agent construction, no query)
is ever reached. -/
theorem missing_api_key_fatal (conversation_outcome : Except String Unit) :
    module_init none =
      Except.error ("Missing GOOGLE_API_KEY environment variable. " ++
        "Please set it in a .env file or your environment.") ∧
    run_module none conversation_outcome =
      Except.error ("Missing GOOGLE_API_KEY environment variable. " ++
        "Please set it in a .env file or your environment.") ∧
    (∀ result, run_module none conversation_outcome ≠ Except.ok result) := by
  refine ⟨rfl, rfl, ?_⟩
  intro result h
  simp [run_module, module_init] at h

/-- C9: in the driver's trace over the fixed three-query sequence, each
turn's completion precedes the next turn's start and at most one turn is
in flight after every prefix: the three awaited external calls are strictly
sequential and never concurrent. -/
theorem conversation_turns_strictly_sequential :
    run_team_conversation_trace =
      [TurnEv.started 1, TurnEv.completed 1, TurnEv.started 2, TurnEv.completed 2,
       TurnEv.started 3, TurnEv.completed 3] ∧
    run_team_conversation_trace.indexOf (TurnEv.completed 1) <
      run_team_conversation_trace.indexOf (TurnEv.started 2) ∧
    run_team_conversation_trace.indexOf (TurnEv.completed 2) <
      run_team_conversation_trace.indexOf (TurnEv.started 3) ∧
    (∀ k ∈ List.range (run_team_conversation_trace.length + 1),
      (turns_in_flight (run_team_conversation_trace.take k)).length ≤ 1) := by
  refine ⟨rfl, ?_, ?_, ?_⟩ <;> decide

end MultiToolAgent
